import Mathlib

/-!
Verification development for the fastapi virtual-storage service.

Shallow embedding of the path translator (FolderDiskService.compute_storage_path,
FileDiskService.compute_file_path), the on-disk store, the catalog repositories
and the two coordinator services (FolderService, FileService). Strings are
modelled as lists of characters; a physical path is the list of its components.
-/

namespace VStore

/-- A Python string, modelled as its list of characters. -/
abbrev Str := List Char

/-- A physical path, modelled as its list of components (the storage base path
is itself a component list, so Path(base, *parts) is list append). -/
abbrev PPath := List Str

/-- Helper for pySplit: returns the first field and the remaining fields of
Python str.split(sep). -/
def splitAux (sep : Char) : Str → Str × List Str
  | [] => ([], [])
  | c :: rest =>
    let p := splitAux sep rest
    if c = sep then ([], p.1 :: p.2) else (c :: p.1, p.2)

/-- Python str.split(sep): splits on every occurrence of sep, keeping empty
fields; the split of the empty string is [""]. -/
def pySplit (sep : Char) (s : Str) : List Str :=
  (splitAux sep s).1 :: (splitAux sep s).2

/-- Remove the leading run of the character c (half of Python str.strip). -/
def dropLeading (c : Char) (s : Str) : Str := s.dropWhile (fun y => y == c)

/-- Remove the trailing run of the character c (Python str.rstrip(c)). -/
def dropTrailing (c : Char) : Str → Str
  | [] => []
  | x :: xs =>
    let ys := dropTrailing c xs
    if ys = [] ∧ x = c then [] else x :: ys

/-- Python str.strip(c): remove leading and trailing runs of c. -/
def pyStrip (c : Char) (s : Str) : Str := dropTrailing c (dropLeading c s)

/-- Keep the non-empty segments, as the list comprehension filter `if seg`
does in both compute_storage_path and compute_file_path. -/
def keepNonempty (xs : List Str) : List Str := xs.filter (fun s => !(s.isEmpty))

/-- Embedding of FolderDiskService.compute_storage_path: split the virtual
path (stripped of outer separators) on the separator, keep the non-empty
segments, and join them beneath the storage base path. -/
def compute_storage_path (basePath : PPath) (virtualPath : Str) : PPath :=
  basePath ++ keepNonempty (pySplit '/' (pyStrip '/' virtualPath))

/-- Embedding of FileDiskService.compute_file_path: as compute_storage_path,
with the filename appended as the final component. -/
def compute_file_path (basePath : PPath) (virtualPath : Str) (filename : Str) : PPath :=
  basePath ++ (keepNonempty (pySplit '/' (pyStrip '/' virtualPath)) ++ [filename])

theorem splitAux_nil (sep : Char) : splitAux sep [] = ([], []) := rfl

theorem splitAux_cons (sep x : Char) (xs : Str) :
    splitAux sep (x :: xs)
      = if x = sep then ([], (splitAux sep xs).1 :: (splitAux sep xs).2)
        else (x :: (splitAux sep xs).1, (splitAux sep xs).2) := rfl

theorem dropTrailing_cons (c x : Char) (xs : Str) :
    dropTrailing c (x :: xs)
      = if dropTrailing c xs = [] ∧ x = c then [] else x :: dropTrailing c xs := rfl

theorem keepNonempty_cons (a : Str) (t : List Str) :
    keepNonempty (a :: t) = if a.isEmpty then keepNonempty t else a :: keepNonempty t := by
  unfold keepNonempty
  rw [List.filter_cons]
  cases h : a.isEmpty <;> simp [h]

theorem keepNonempty_pySplit_dropLeading (c : Char) (l : Str) :
    keepNonempty (pySplit c (dropLeading c l)) = keepNonempty (pySplit c l) := by
  induction l with
  | nil => rfl
  | cons x xs ih =>
    by_cases hx : x = c
    · subst hx
      have hd : dropLeading x (x :: xs) = dropLeading x xs := by
        simp [dropLeading, List.dropWhile_cons]
      rw [hd, ih]
      have hs : pySplit x (x :: xs) = [] :: pySplit x xs := by
        simp [pySplit, splitAux]
      rw [hs, keepNonempty_cons]
      simp
    · have hd : dropLeading c (x :: xs) = x :: xs := by
        simp [dropLeading, List.dropWhile_cons]
        intro h
        exact absurd h hx
      rw [hd]

theorem splitAux_dropTrailing (c : Char) (l : Str) :
    (splitAux c (dropTrailing c l)).1 = (splitAux c l).1 ∧
    keepNonempty (splitAux c (dropTrailing c l)).2 = keepNonempty (splitAux c l).2 := by
  induction l with
  | nil => exact ⟨rfl, rfl⟩
  | cons x xs ih =>
    obtain ⟨ih1, ih2⟩ := ih
    by_cases hcond : dropTrailing c xs = [] ∧ x = c
    · obtain ⟨hys, hx⟩ := hcond
      have hd : dropTrailing c (x :: xs) = [] := by
        rw [dropTrailing_cons, if_pos ⟨hys, hx⟩]
      have h1 : (splitAux c xs).1 = [] := by
        rw [← ih1, hys, splitAux_nil]
      have h2 : keepNonempty (splitAux c xs).2 = [] := by
        rw [← ih2, hys]
        rfl
      rw [hd, splitAux_cons, if_pos hx]
      refine ⟨?_, ?_⟩
      · simp [splitAux_nil, h1]
      · simp [splitAux_nil, keepNonempty_cons, h1, h2]
        rfl
    · have hd : dropTrailing c (x :: xs) = x :: dropTrailing c xs := by
        rw [dropTrailing_cons, if_neg hcond]
      rw [hd, splitAux_cons, splitAux_cons]
      by_cases hx : x = c
      · rw [if_pos hx, if_pos hx]
        refine ⟨rfl, ?_⟩
        rw [keepNonempty_cons, keepNonempty_cons, ih1, ih2]
      · rw [if_neg hx, if_neg hx]
        exact ⟨by rw [ih1], by rw [ih2]⟩

theorem keepNonempty_pySplit_dropTrailing (c : Char) (l : Str) :
    keepNonempty (pySplit c (dropTrailing c l)) = keepNonempty (pySplit c l) := by
  obtain ⟨h1, h2⟩ := splitAux_dropTrailing c l
  unfold pySplit
  rw [keepNonempty_cons, keepNonempty_cons, h1, h2]

theorem keepNonempty_pySplit_pyStrip (c : Char) (l : Str) :
    keepNonempty (pySplit c (pyStrip c l)) = keepNonempty (pySplit c l) := by
  unfold pyStrip
  rw [keepNonempty_pySplit_dropTrailing, keepNonempty_pySplit_dropLeading]

/-- C6: For every virtual path string and storage root, the path translator
deterministically computes the physical path by splitting the virtual path on
the separator, discarding empty segments, and joining each non-empty segment
beneath the root; both translator functions are pure total Lean functions with
no failure modes, so the stripping step performed by the source is redundant
and the result is exactly the split-discard-join of the contract. -/
theorem compute_paths_split_discard_join (basePath : PPath) (vp fn : Str) :
    compute_storage_path basePath vp = basePath ++ keepNonempty (pySplit '/' vp) ∧
    compute_file_path basePath vp fn = basePath ++ (keepNonempty (pySplit '/' vp) ++ [fn]) := by
  unfold compute_storage_path compute_file_path
  rw [keepNonempty_pySplit_pyStrip]
  exact ⟨rfl, rfl⟩

/-- C9: the virtual-to-physical translation is not injective: a path with a
doubled separator and a path with a trailing separator collapse to the same
physical location as their normalized forms, although the virtual path strings
differ, so two distinct virtual_path catalog values can denote one disk path. -/
theorem translator_not_injective (basePath : PPath) :
    ("/a//b/".toList ≠ "/a/b/".toList ∧
      compute_storage_path basePath "/a//b/".toList
        = compute_storage_path basePath "/a/b/".toList) ∧
    ("/a/b".toList ≠ "/a/b/".toList ∧
      compute_storage_path basePath "/a/b".toList
        = compute_storage_path basePath "/a/b/".toList) := by
  constructor
  · refine ⟨by decide, ?_⟩
    unfold compute_storage_path
    exact congrArg (fun l => basePath ++ l) (by decide)
  · refine ⟨by decide, ?_⟩
    unfold compute_storage_path
    exact congrArg (fun l => basePath ++ l) (by decide)

/-- A filesystem node: a directory, or a regular file with its byte content
(bytes modelled as naturals). -/
inductive FsNode
  | dir : FsNode
  | file : List Nat → FsNode
deriving DecidableEq

/-- One existing entry of the physical tree. -/
structure Entry where
  path : PPath
  node : FsNode
deriving DecidableEq

/-- The physical filesystem, as the list of its existing entries. -/
abbrev Disk := List Entry

/-- Path.exists: some entry lives at this path. -/
def existsAt (d : Disk) (p : PPath) : Bool := d.any (fun e => e.path == p)

/-- Path.is_dir: the entry at this path is a directory. -/
def isDirAt (d : Disk) (p : PPath) : Bool :=
  d.any (fun e => e.path == p && e.node == FsNode.dir)

/-- Decides whether the first path is an initial segment of the second, that
is, an ancestor of it or the path itself. -/
def isUnder : PPath → PPath → Bool
  | [], _ => true
  | _ :: _, [] => false
  | a :: as, b :: bs => a == b && isUnder as bs

/-- The directory at p has at least one entry strictly beneath it. -/
def hasEntryUnder (d : Disk) (p : PPath) : Bool :=
  d.any (fun e => isUnder p e.path && !(e.path == p))

/-- Re-root a path from the old subtree root to the new one. -/
def rebase (oldRoot newRoot p : PPath) : PPath := newRoot ++ p.drop oldRoot.length

/-- Move the subtree rooted at oldP to newP, dropping a replaced entry at
newP when one exists. -/
def moveSubtree (d : Disk) (oldP newP : PPath) : Disk :=
  (d.filter (fun e => !(e.path == newP))).map
    (fun e => if isUnder oldP e.path then { e with path := rebase oldP newP e.path } else e)

/-- Errors surfaced by the operating system calls the disk services make. -/
inductive OsErr
  | noSuchFile
  | fileExists
  | dirNotEmpty
  | notADirectory
  | isADirectory
  | invalidArg
deriving DecidableEq

/-- POSIX os.rename as invoked by Path.rename: the source must exist; renaming
to the same path is a no-op; renaming a directory beneath itself is EINVAL; an
existing target is replaced only when the kinds agree and a target directory is
empty, otherwise the call fails. -/
def posixRename (d : Disk) (oldP newP : PPath) : Except OsErr Disk :=
  if existsAt d oldP = false then .error .noSuchFile
  else if oldP = newP then .ok d
  else if isUnder oldP newP = true then .error .invalidArg
  else if existsAt d newP = true then
    if isDirAt d oldP = true then
      if isDirAt d newP = true then
        if hasEntryUnder d newP = true then .error .dirNotEmpty
        else .ok (moveSubtree d oldP newP)
      else .error .notADirectory
    else
      if isDirAt d newP = true then .error .isADirectory
      else .ok (moveSubtree d oldP newP)
  else .ok (moveSubtree d oldP newP)

/-- The non-empty initial segments of a path, shortest first. -/
def initialSegs : PPath → List PPath
  | [] => []
  | x :: xs => [x] :: (initialSegs xs).map (fun q => x :: q)

/-- Walk the given prefixes in order, creating each missing directory; a file
already occupying one of them raises FileExistsError, keeping the directories
created so far (Path.mkdir with parents=True and exist_ok=True). -/
def mkdirParentsAux (d : Disk) : List PPath → Option OsErr × Disk
  | [] => (none, d)
  | q :: qs =>
    if existsAt d q = true then
      if isDirAt d q = true then mkdirParentsAux d qs else (some .fileExists, d)
    else mkdirParentsAux (d ++ [⟨q, .dir⟩]) qs

/-- Path.mkdir(parents=True, exist_ok=True): create the path and all missing
ancestors, tolerating existing directories. -/
def mkdirParents (d : Disk) (p : PPath) : Option OsErr × Disk :=
  mkdirParentsAux d (initialSegs p)

/-- FolderDiskService.create_folder: Path.mkdir(parents=True, exist_ok=False).
An existing leaf fails with FileExistsError before anything is created;
otherwise the missing ancestors and the leaf directory are created. -/
def create_folder (d : Disk) (p : PPath) : Option OsErr × Disk :=
  if existsAt d p = true then (some .fileExists, d) else mkdirParents d p

/-- FolderDiskService.delete_folder: if the path exists, shutil.rmtree removes
the whole subtree (rmtree on a non-directory fails); a missing path is
silently skipped. -/
def rmTree (d : Disk) (p : PPath) : Option OsErr × Disk :=
  if existsAt d p = true then
    if isDirAt d p = true then (none, d.filter (fun e => !(isUnder p e.path)))
    else (some .notADirectory, d)
  else (none, d)

/-- FileDiskService.delete_file: if the path exists, Path.unlink removes the
file (unlink on a directory fails); a missing path is silently skipped. -/
def unlinkFile (d : Disk) (p : PPath) : Option OsErr × Disk :=
  if existsAt d p = true then
    if isDirAt d p = true then (some .isADirectory, d)
    else (none, d.filter (fun e => !(e.path == p)))
  else (none, d)

/-- FolderDiskService.rename_folder: create the missing ancestors of the new
path, then Path.rename; a failure of the rename leaves the ancestors that were
just created in place. -/
def rename_folder (d : Disk) (oldP newP : PPath) : Option OsErr × Disk :=
  match mkdirParents d newP.dropLast with
  | (some e, d1) => (some e, d1)
  | (none, d1) =>
    match posixRename d1 oldP newP with
    | .error e => (some e, d1)
    | .ok d2 => (none, d2)

/-- Truncating write of open("wb") followed by copyfileobj: replace the entry
at the path or append a fresh one. -/
def writeFileAt : Disk → PPath → List Nat → Disk
  | [], p, c => [⟨p, .file c⟩]
  | e :: es, p, c => if e.path == p then ⟨p, .file c⟩ :: es else e :: writeFileAt es p c

/-- Path.stat().st_size: the byte length of the file at the path (0 when the
path is absent or a directory; the services only call it on written files). -/
def statSize : Disk → PPath → Nat
  | [], _ => 0
  | e :: es, p =>
    if e.path == p then
      match e.node with
      | .file c => c.length
      | .dir => 0
    else statSize es p

/-- The final path component of a string path, as pathlib computes the name
(the part after the last separator). -/
def lastComponent (s : Str) : Str := (s.reverse.takeWhile (fun y => !(y == '/'))).reverse

/-- Path.suffix of a single name: the part from the last dot on, empty when
there is no dot, when the name starts with its only dot, or when the dot is
the final character. -/
def pySuffix (name : Str) : Str :=
  match name.reverse.findIdx? (fun y => y == '.') with
  | none => []
  | some k =>
    let i := name.length - 1 - k
    if 0 < i ∧ i + 1 < name.length then name.drop i else []

/-- Python str.lower restricted to characters. -/
def pyLower (s : Str) : Str := s.map Char.toLower

/-- Python s.rstrip(sep).rsplit(sep, 1)[0] as used for the parent part of a
virtual path: everything before the last separator, or the whole string when
the separator does not occur. -/
def beforeLastSep (sep : Char) (s : Str) : Str :=
  if s.contains sep then ((s.reverse.dropWhile (fun y => !(y == sep))).drop 1).reverse else s

/-- The fragment of the stdlib mimetypes table for the extensions exercised in
this development; guess_type is case-insensitive on the extension. -/
def mimeTable : List (Str × Str) :=
  [(".pdf".toList, "application/pdf".toList),
   (".png".toList, "image/png".toList),
   (".jpg".toList, "image/jpeg".toList),
   (".txt".toList, "text/plain".toList)]

/-- FileDiskService.get_mime_type: mimetypes.guess_type on the path string,
falling back to application/octet-stream when nothing is recognised. -/
def guessMime (filename : Str) : Str :=
  match mimeTable.find? (fun kv => kv.1 == pyLower (pySuffix (lastComponent filename))) with
  | some kv => kv.2
  | none => "application/octet-stream".toList

/-- Errors raised by the repositories and services: NoResultFound,
FolderAlreadyExistsError, IntegrityError from a uniqueness constraint,
pydantic ValidationError, AttributeError on a missing model field, and
propagated OS errors. -/
inductive Err
  | notFound
  | alreadyExists
  | integrityConflict
  | validation
  | attributeMissing
  | osError : OsErr → Err
deriving DecidableEq

/-- A catalog row of the fjc_folder table (ids and user ids are opaque UUID
strings; timestamps and access_url carry no logic and are omitted). -/
structure FolderRow where
  id : Str
  name : Str
  parentId : Option Str
  creatorUserId : Str
  isPublished : Bool
  storagePath : PPath
  virtualPath : Str
deriving DecidableEq

/-- A catalog row of the fjc_file table. -/
structure FileRow where
  id : Str
  name : Str
  uploaderUserId : Str
  folderId : Option Str
  storagePath : PPath
  virtualPath : Str
  sizeBytes : Nat
  mimeType : Str
deriving DecidableEq

/-- The coupled state the coordinators act on: the two catalog tables plus the
physical filesystem. -/
structure St where
  folders : List FolderRow
  files : List FileRow
  disk : Disk
deriving DecidableEq

/-- FolderIn, the creation DTO. -/
structure FolderIn where
  name : Str
  parentId : Option Str
  creatorUserId : Str
  isPublished : Bool
deriving DecidableEq

/-- FolderUpdate, the partial-update DTO; a missing optional field is None. An
explicitly transmitted null is modelled as the field being absent. -/
structure FolderUpdate where
  name : Option Str
  parentId : Option Str
  creatorUserId : Option Str
  isPublished : Option Bool
deriving DecidableEq

/-- FileUpdate, the partial-update DTO of the file routes: it declares only a
name and a folder_id, and in particular no virtual_path field. -/
structure FileUpdate where
  name : Option Str
  folderId : Option Str
deriving DecidableEq

/-- FolderRepository.get_by_id (select by primary key). -/
def getFolderById (st : St) (fid : Str) : Option FolderRow :=
  st.folders.find? (fun r => r.id == fid)

/-- FolderRepository.get_by_virtual_path (select by the unique virtual path). -/
def getFolderByVirtualPath (st : St) (vp : Str) : Option FolderRow :=
  st.folders.find? (fun r => r.virtualPath == vp)

/-- FileRepository.get_by_id. -/
def getFileById (st : St) (fid : Str) : Option FileRow :=
  st.files.find? (fun r => r.id == fid)

/-- The uniqueness constraints of fjc_folder: primary key plus unique
storage_path and virtual_path. -/
def folderInsertOk (fs : List FolderRow) (r : FolderRow) : Bool :=
  !(fs.any (fun q => q.id == r.id || q.storagePath == r.storagePath
      || q.virtualPath == r.virtualPath))

/-- The uniqueness constraints of fjc_file. -/
def fileInsertOk (fs : List FileRow) (r : FileRow) : Bool :=
  !(fs.any (fun q => q.id == r.id || q.storagePath == r.storagePath
      || q.virtualPath == r.virtualPath))

/-- Apply a FolderUpdate DTO plus the service-computed paths to a row, as the
UPDATE statement of FolderRepository.update does with exclude_unset fields. -/
def applyFolderUpdate (r : FolderRow) (data : FolderUpdate) (sp : PPath) (vp : Str) : FolderRow :=
  { r with
    name := data.name.getD r.name
    parentId := match data.parentId with | some p => some p | none => r.parentId
    creatorUserId := data.creatorUserId.getD r.creatorUserId
    isPublished := data.isPublished.getD r.isPublished
    storagePath := sp
    virtualPath := vp }

/-- Replace the row with the given id. -/
def replaceFolderRow (fs : List FolderRow) (fid : Str) (r' : FolderRow) : List FolderRow :=
  fs.map (fun r => if r.id == fid then r' else r)

/-- FolderRepository.update: UPDATE ... WHERE id = fid with the set fields and
the overriding paths, then re-read the row; a vanished row surfaces as
NoResultFound, a uniqueness violation against another row as IntegrityError
(the transaction rolls back, changing nothing). -/
def repoFolderUpdate (fs : List FolderRow) (fid : Str) (data : FolderUpdate)
    (sp : PPath) (vp : Str) : Except Err (FolderRow × List FolderRow) :=
  match fs.find? (fun r => r.id == fid) with
  | none => .error .notFound
  | some r =>
    if fs.any (fun q => !(q.id == fid) && (q.storagePath == sp || q.virtualPath == vp)) then
      .error .integrityConflict
    else
      .ok (applyFolderUpdate r data sp vp, replaceFolderRow fs fid (applyFolderUpdate r data sp vp))

/-- One widening step of the ondelete-CASCADE closure: the ids of the folders
whose parent is already marked but which are not yet marked themselves. -/
def cascadeStep (fs : List FolderRow) (acc : List Str) : List Str :=
  (fs.filter (fun r => !(acc.contains r.id)
    && (match r.parentId with | some p => acc.contains p | none => false))).map (fun r => r.id)

/-- Iterate the cascade closure with enough fuel to reach a fixed point. -/
def cascadeIds (fs : List FolderRow) : List Str → Nat → List Str
  | acc, 0 => acc
  | acc, n + 1 =>
    match cascadeStep fs acc with
    | [] => acc
    | _ => cascadeIds fs (acc ++ cascadeStep fs acc) n

/-- All folder ids removed when the given folder row is deleted (the folder
itself and its catalog descendants). -/
def folderIdsToDelete (fs : List FolderRow) (fid : Str) : List Str :=
  cascadeIds fs [fid] fs.length

/-- Normalization the FolderService constructor applies to base_virtual:
rstrip of separators, then one trailing separator. -/
def normalizeBaseVirtual (raw : Str) : Str := dropTrailing '/' raw ++ ['/']

/-- The virtual path FolderService.create computes for a new folder: beneath
the parent when parent_id is given (NoResultFound when that parent row is
absent), beneath the base virtual root otherwise. -/
def createTargetVirtualPath (baseVirtual : Str) (st : St) (data : FolderIn) : Except Err Str :=
  match data.parentId with
  | some pid =>
    match getFolderById st pid with
    | none => .error .notFound
    | some parent => .ok (dropTrailing '/' parent.virtualPath ++ ('/' :: (data.name ++ ['/'])))
  | none => .ok (baseVirtual ++ (data.name ++ ['/']))

/-- FolderService.create: compute the virtual path, probe the catalog by
virtual path and fail with FolderAlreadyExistsError when a row exists, create
the directory on disk, then insert the catalog row. baseVirtual is the
constructor-normalized base_virtual. -/
def folderCreate (basePath : PPath) (baseVirtual : Str) (st : St) (data : FolderIn)
    (newId : Str) : Except Err FolderRow × St :=
  match createTargetVirtualPath baseVirtual st data with
  | .error e => (.error e, st)
  | .ok virt =>
    match getFolderByVirtualPath st virt with
    | some _ => (.error .alreadyExists, st)
    | none =>
      let phys := compute_storage_path basePath virt
      match create_folder st.disk phys with
      | (some e, d1) => (.error (.osError e), { st with disk := d1 })
      | (none, d1) =>
        let row : FolderRow :=
          { id := newId, name := data.name, parentId := data.parentId,
            creatorUserId := data.creatorUserId, isPublished := data.isPublished,
            storagePath := phys, virtualPath := virt }
        if folderInsertOk st.folders row then
          (.ok row, { st with disk := d1, folders := st.folders ++ [row] })
        else (.error .integrityConflict, { st with disk := d1 })

/-- The virtual path FolderService.update computes: when parent_id is
transmitted, beneath the freshly loaded new parent (a UUID value is always
truthy in Python, so the base-virtual branch of the source is unreachable);
otherwise the existing parent part with the trailing name segment replaced. -/
def updateTargetVirtualPath (st : St) (existing : FolderRow) (data : FolderUpdate) : Except Err Str :=
  let newName := data.name.getD existing.name
  match data.parentId with
  | some pid =>
    match getFolderById st pid with
    | none => .error .notFound
    | some newParent => .ok (dropTrailing '/' newParent.virtualPath ++ ('/' :: (newName ++ ['/'])))
  | none =>
    .ok (beforeLastSep '/' (dropTrailing '/' existing.virtualPath) ++ ('/' :: (newName ++ ['/'])))

/-- The catalog half of FolderService.update, after a successful disk step. -/
def finishFolderUpdate (st : St) (fid : Str) (data : FolderUpdate) (sp : PPath) (vp : Str) :
    Except Err FolderRow × St :=
  match repoFolderUpdate st.folders fid data sp vp with
  | .error e => (.error e, st)
  | .ok (r, fs) => (.ok r, { st with folders := fs })

/-- FolderService.update: load the row, compute the new virtual and physical
paths, rename on disk when the physical path changed, then update the single
catalog row of the folder. -/
def folderUpdate (basePath : PPath) (st : St) (fid : Str) (data : FolderUpdate) :
    Except Err FolderRow × St :=
  match getFolderById st fid with
  | none => (.error .notFound, st)
  | some existing =>
    match updateTargetVirtualPath st existing data with
    | .error e => (.error e, st)
    | .ok newVirt =>
      let oldPath := existing.storagePath
      let newPath := compute_storage_path basePath newVirt
      if oldPath = newPath then
        finishFolderUpdate st fid data newPath newVirt
      else
        match rename_folder st.disk oldPath newPath with
        | (some e, d1) => (.error (.osError e), { st with disk := d1 })
        | (none, d1) => finishFolderUpdate { st with disk := d1 } fid data newPath newVirt

/-- FolderService.delete: load the row, remove the physical subtree, then
delete the catalog row, which cascades to descendant folder and file rows. -/
def folderDelete (st : St) (fid : Str) : Except Err Unit × St :=
  match getFolderById st fid with
  | none => (.error .notFound, st)
  | some existing =>
    match rmTree st.disk existing.storagePath with
    | (some e, d1) => (.error (.osError e), { st with disk := d1 })
    | (none, d1) =>
      let ids := folderIdsToDelete st.folders fid
      (.ok (), { folders := st.folders.filter (fun r => !(ids.contains r.id)),
                 files := st.files.filter (fun f =>
                   match f.folderId with | some g => !(ids.contains g) | none => true),
                 disk := d1 })

/-- Configuration of FileDiskService: the storage base path and the optional
allow-list of extensions (lowercased by the constructor). -/
structure FileCfg where
  basePath : PPath
  allowedExtensions : Option (List Str)
deriving DecidableEq

/-- The extension guard of save_file: with no allow-list everything passes. -/
def extAllowed : Option (List Str) → Str → Bool
  | none, _ => true
  | some exts, ext => exts.contains ext

/-- FileDiskService.save_file: compute the physical path, reject a disallowed
extension before touching the disk, create the missing parent directories, and
write the stream to the file (truncating an existing one). -/
def save_file (cfg : FileCfg) (d : Disk) (virtualPath : Str) (filename : Str)
    (content : List Nat) : Except Err PPath × Disk :=
  let path := compute_file_path cfg.basePath virtualPath filename
  let ext := pyLower (pySuffix (lastComponent filename))
  if extAllowed cfg.allowedExtensions ext = false then (.error .validation, d)
  else
    match mkdirParents d path.dropLast with
    | (some e, d1) => (.error (.osError e), d1)
    | (none, d1) =>
      if isDirAt d1 path = true then (.error (.osError .isADirectory), d1)
      else (.ok path, writeFileAt d1 path content)

/-- FileService.upload: resolve the folder row by virtual path (NoResultFound
when absent), use the fresh identifier string as the display name when the
client sent none, derive the extension from the display name, save the stream
under identifier-plus-extension inside the folder, read back size and MIME
type, validate the display name (the no-separator validator of FileIn), and
insert the catalog row. newId is the string form of the generated uuid4. -/
def fileUpload (cfg : FileCfg) (st : St) (fileName : Option Str) (uploaderId : Str)
    (folderPath : Str) (content : List Nat) (newId : Str) : Except Err FileRow × St :=
  match getFolderByVirtualPath st folderPath with
  | none => (.error .notFound, st)
  | some folderInfo =>
    let fName := fileName.getD newId
    let ext := pySuffix (lastComponent fName)
    let baseVirt := dropTrailing '/' folderInfo.virtualPath
    let virt := baseVirt ++ ('/' :: (newId ++ ext))
    let vdir := if baseVirt = [] then ['/'] else baseVirt
    match save_file cfg st.disk vdir (newId ++ ext) content with
    | (.error e, d1) => (.error e, { st with disk := d1 })
    | (.ok phys, d1) =>
      let size := statSize d1 phys
      let mime := guessMime (newId ++ ext)
      if fName.contains '/' then (.error .validation, { st with disk := d1 })
      else
        let row : FileRow :=
          { id := newId, name := fName, uploaderUserId := uploaderId,
            folderId := some folderInfo.id, storagePath := phys, virtualPath := virt,
            sizeBytes := size, mimeType := mime }
        if fileInsertOk st.files row then
          (.ok row, { st with disk := d1, files := st.files ++ [row] })
        else (.error .integrityConflict, { st with disk := d1 })

/-- FileService.update_metadata: load the row, then evaluate
data.virtual_path or db_item.virtual_path. FileUpdate declares no
virtual_path field, so that attribute access raises AttributeError before any
disk or catalog mutation is attempted. -/
def fileUpdateMetadata (st : St) (fid : Str) (_data : FileUpdate) : Except Err FileRow × St :=
  match getFileById st fid with
  | none => (.error .notFound, st)
  | some _ => (.error .attributeMissing, st)

/-- FileService.delete_file_by_id: load the row, delete the physical file,
then delete the catalog row. -/
def fileDeleteById (st : St) (fid : Str) : Except Err Unit × St :=
  match getFileById st fid with
  | none => (.error .notFound, st)
  | some row =>
    match unlinkFile st.disk row.storagePath with
    | (some e, d1) => (.error (.osError e), { st with disk := d1 })
    | (none, d1) =>
      (.ok (), { st with disk := d1, files := st.files.filter (fun f => !(f.id == fid)) })

/-- C2: FileService.update_metadata can never carry out the documented
relocation protocol: for every state, file id and FileUpdate payload it either
fails with NoResultFound (row absent) or fails with the AttributeError raised
by reading the non-existent virtual_path field of FileUpdate, in both cases
leaving the whole state untouched, so no content is ever written to a new
location, no old location deleted and no catalog row updated. -/
theorem fileUpdateMetadata_never_relocates (st : St) (fid : Str) (data : FileUpdate) :
    fileUpdateMetadata st fid data = (.error .notFound, st) ∨
    fileUpdateMetadata st fid data = (.error .attributeMissing, st) := by
  unfold fileUpdateMetadata
  cases getFileById st fid <;> simp

/-- C4: when the virtual path computed for a create call already has a catalog
row, FolderService.create fails with FolderAlreadyExistsError and returns the
state unchanged: the catalog probe happens before any disk or catalog
mutation, so no new row and no new directory appear. -/
theorem folderCreate_probe_already_exists (basePath : PPath) (baseVirtual : Str) (st : St)
    (data : FolderIn) (newId : Str) (virt : Str) (row : FolderRow)
    (hvirt : createTargetVirtualPath baseVirtual st data = .ok virt)
    (hprobe : getFolderByVirtualPath st virt = some row) :
    folderCreate basePath baseVirtual st data newId = (.error .alreadyExists, st) := by
  simp only [folderCreate, hvirt, hprobe]

/-- Catalog row used by the C4 witness. -/
def c4Row : FolderRow :=
  { id := "11".toList, name := "a".toList, parentId := none,
    creatorUserId := "u1".toList, isPublished := true,
    storagePath := ["store".toList, "a".toList], virtualPath := "/a/".toList }

/-- State used by the C4 witness: the folder a already exists in catalog and
on disk. -/
def c4St : St :=
  { folders := [c4Row], files := [],
    disk := [⟨["store".toList], .dir⟩, ⟨["store".toList, "a".toList], .dir⟩] }

/-- The second create of the same name used by the C4 witness. -/
def c4In : FolderIn :=
  { name := "a".toList, parentId := none, creatorUserId := "u2".toList, isPublished := true }

theorem folderCreate_probe_already_exists_witness :
    createTargetVirtualPath "/".toList c4St c4In = .ok "/a/".toList ∧
    getFolderByVirtualPath c4St "/a/".toList = some c4Row ∧
    folderCreate ["store".toList] "/".toList c4St c4In "22".toList
      = (.error .alreadyExists, c4St) :=
  ⟨rfl, rfl, folderCreate_probe_already_exists ["store".toList] "/".toList c4St c4In
    "22".toList "/a/".toList c4Row rfl rfl⟩

/-- C7 amended: FileService.upload resolves the target folder by virtual path
and fails with NoResultFound, mutating nothing, whenever no catalog row has
that virtual path; this includes the root path, so an upload with no folder
row never succeeds. -/
theorem fileUpload_requires_folder_row (cfg : FileCfg) (st : St) (fileName : Option Str)
    (uploaderId : Str) (folderPath : Str) (content : List Nat) (newId : Str)
    (habsent : getFolderByVirtualPath st folderPath = none) :
    fileUpload cfg st fileName uploaderId folderPath content newId = (.error .notFound, st) := by
  unfold fileUpload
  rw [habsent]

/-- A state with an empty catalog, used for the C7 counterexample. -/
def c7St : St := { folders := [], files := [], disk := [⟨["store".toList], .dir⟩] }

/-- C7 counterexample: uploading to the root virtual path with no folder row
fails with NoResultFound instead of succeeding without a folder, refuting the
part of the claim that allows root uploads; no folder row with virtual path /
can ever exist because every created folder path ends in name-plus-separator. -/
theorem upload_to_root_fails_notFound :
    fileUpload { basePath := ["store".toList], allowedExtensions := none } c7St
        (some "report.pdf".toList) "u1".toList "/".toList [1, 2, 3] "id01".toList
      = (.error .notFound, c7St) := rfl

theorem fileUpload_requires_folder_row_witness :
    getFolderByVirtualPath c7St "/docs/".toList = none ∧
    fileUpload { basePath := ["store".toList], allowedExtensions := none } c7St
        none "u1".toList "/docs/".toList [1] "id02".toList
      = (.error .notFound, c7St) :=
  ⟨rfl, fileUpload_requires_folder_row { basePath := ["store".toList], allowedExtensions := none }
    c7St none "u1".toList "/docs/".toList [1] "id02".toList rfl⟩

/-- Folder row of the C3 scenarios: folder a backed by directory a. -/
def c3Row : FolderRow :=
  { id := "1".toList, name := "a".toList, parentId := none,
    creatorUserId := "u".toList, isPublished := true,
    storagePath := ["a".toList], virtualPath := "/a/".toList }

/-- State of the C3 counterexample: an orphan empty directory b exists on
disk with no catalog row. -/
def c3St : St :=
  { folders := [c3Row], files := [],
    disk := [⟨["a".toList], .dir⟩, ⟨["b".toList], .dir⟩] }

/-- Rename request of the C3 scenarios: rename folder a to b. -/
def c3Data : FolderUpdate :=
  { name := some "b".toList, parentId := none, creatorUserId := none, isPublished := none }

/-- The catalog row after the C3 counterexample update. -/
def c3RowAfter : FolderRow :=
  { id := "1".toList, name := "b".toList, parentId := none,
    creatorUserId := "u".toList, isPublished := true,
    storagePath := ["b".toList], virtualPath := "/b/".toList }

/-- C3 counterexample: the new physical path b already exists on disk as an
empty directory, yet the update succeeds: the POSIX rename silently replaces
the empty target directory, the catalog row moves to b, and the disk changes,
refuting the claim that every rename whose target exists fails with Conflict
and leaves everything unchanged. -/
theorem rename_over_empty_dir_succeeds :
    updateTargetVirtualPath c3St c3Row c3Data = .ok "/b/".toList ∧
    compute_storage_path [] "/b/".toList = ["b".toList] ∧
    existsAt c3St.disk ["b".toList] = true ∧
    folderUpdate [] c3St "1".toList c3Data
      = (.ok c3RowAfter,
         { folders := [c3RowAfter], files := [], disk := [⟨["b".toList], .dir⟩] }) :=
  ⟨rfl, rfl, rfl, rfl⟩

/-- C3 amended: when the new physical path differs from the old one, already
exists on disk and is a non-empty directory (and does not lie beneath the old
path), the rename raises the platform conflict error ENOTEMPTY, the error
propagates out of FolderService.update before the catalog step, and the whole
state, in particular the folder row and the original disk subtree, is
returned unchanged; an existing empty target directory is instead silently
replaced, as the counterexample shows. -/
theorem folderUpdate_conflict_nonempty_target (basePath : PPath) (st : St) (fid : Str)
    (data : FolderUpdate) (existing : FolderRow) (newVirt : Str)
    (hex : getFolderById st fid = some existing)
    (hvirt : updateTargetVirtualPath st existing data = .ok newVirt)
    (hne : existing.storagePath ≠ compute_storage_path basePath newVirt)
    (hmk : mkdirParents st.disk (compute_storage_path basePath newVirt).dropLast
      = (none, st.disk))
    (hold : existsAt st.disk existing.storagePath = true)
    (hnotUnder : isUnder existing.storagePath (compute_storage_path basePath newVirt) = false)
    (hnew : existsAt st.disk (compute_storage_path basePath newVirt) = true)
    (holdDir : isDirAt st.disk existing.storagePath = true)
    (hnewDir : isDirAt st.disk (compute_storage_path basePath newVirt) = true)
    (hnonempty : hasEntryUnder st.disk (compute_storage_path basePath newVirt) = true) :
    folderUpdate basePath st fid data = (.error (.osError .dirNotEmpty), st) := by
  simp only [folderUpdate, hex, hvirt]
  rw [if_neg hne]
  simp only [rename_folder, hmk, posixRename, hold, hne, hnotUnder, hnew, holdDir, hnewDir,
    hnonempty]
  simp

/-- Folder row of the C3 amended witness. -/
def c3wRow : FolderRow :=
  { id := "1".toList, name := "a".toList, parentId := none,
    creatorUserId := "u".toList, isPublished := true,
    storagePath := ["a".toList], virtualPath := "/a/".toList }

/-- State of the C3 amended witness: the orphan directory b now has a child,
so the rename target is a non-empty directory. -/
def c3wSt : St :=
  { folders := [c3wRow], files := [],
    disk := [⟨["a".toList], .dir⟩, ⟨["b".toList], .dir⟩, ⟨["b".toList, "c".toList], .dir⟩] }

theorem folderUpdate_conflict_nonempty_target_witness :
    getFolderById c3wSt "1".toList = some c3wRow ∧
    updateTargetVirtualPath c3wSt c3wRow c3Data = .ok "/b/".toList ∧
    c3wRow.storagePath ≠ compute_storage_path [] "/b/".toList ∧
    folderUpdate [] c3wSt "1".toList c3Data = (.error (.osError .dirNotEmpty), c3wSt) :=
  ⟨rfl, rfl, by decide,
    folderUpdate_conflict_nonempty_target [] c3wSt "1".toList c3Data c3wRow "/b/".toList
      rfl rfl (by decide) rfl rfl rfl rfl rfl rfl rfl⟩

/-- Parent folder row of the C1 counterexample. -/
def c1Parent : FolderRow :=
  { id := "1".toList, name := "a".toList, parentId := none,
    creatorUserId := "u".toList, isPublished := true,
    storagePath := ["a".toList], virtualPath := "/a/".toList }

/-- Child folder row of the C1 counterexample, physically inside the parent. -/
def c1Child : FolderRow :=
  { id := "2".toList, name := "b".toList, parentId := some "1".toList,
    creatorUserId := "u".toList, isPublished := true,
    storagePath := ["a".toList, "b".toList], virtualPath := "/a/b/".toList }

/-- State of the C1 counterexample: catalog and disk agree before the rename. -/
def c1St : St :=
  { folders := [c1Parent, c1Child], files := [],
    disk := [⟨["a".toList], .dir⟩, ⟨["a".toList, "b".toList], .dir⟩] }

/-- Rename request of the C1 counterexample: rename folder a to c. -/
def c1Data : FolderUpdate :=
  { name := some "c".toList, parentId := none, creatorUserId := none, isPublished := none }

/-- The parent row after the C1 counterexample update. -/
def c1ParentAfter : FolderRow :=
  { id := "1".toList, name := "c".toList, parentId := none,
    creatorUserId := "u".toList, isPublished := true,
    storagePath := ["c".toList], virtualPath := "/c/".toList }

/-- C1 counterexample: renaming folder a to c succeeds and physically moves
the whole subtree, but only the renamed folder row is rewritten: the child
row keeps virtual path /a/b/ and storage path a/b, and although the
translator still maps its virtual path to its storage path, that path no
longer exists on disk, refuting the claim that after an update every catalog
row (descendants included) agrees with the disk layout. -/
theorem folderUpdate_leaves_descendant_row_stale :
    (folderUpdate [] c1St "1".toList c1Data).1 = .ok c1ParentAfter ∧
    getFolderById (folderUpdate [] c1St "1".toList c1Data).2 "2".toList = some c1Child ∧
    compute_storage_path [] c1Child.virtualPath = c1Child.storagePath ∧
    existsAt (folderUpdate [] c1St "1".toList c1Data).2.disk c1Child.storagePath = false :=
  ⟨rfl, rfl, rfl, rfl⟩

theorem isUnder_refl (p : PPath) : isUnder p p = true := by
  induction p with
  | nil => rfl
  | cons a as ih => simp [isUnder, ih]

theorem moveSubtree_target_exists (d : Disk) (o n : PPath)
    (ho : existsAt d o = true) (hne : o ≠ n) :
    existsAt (moveSubtree d o n) n = true := by
  unfold existsAt at ho ⊢
  rw [List.any_eq_true] at ho ⊢
  obtain ⟨e, he, hep⟩ := ho
  have hpath : e.path = o := by simpa using hep
  refine ⟨{ path := n, node := e.node }, ?_, by simp⟩
  unfold moveSubtree
  rw [List.mem_map]
  refine ⟨e, ?_, ?_⟩
  · rw [List.mem_filter]
    refine ⟨he, ?_⟩
    simp [hpath, hne]
  · rw [hpath, if_pos (isUnder_refl o)]
    simp [rebase, List.drop_length]

theorem posixRename_ok_exists (d : Disk) (o n : PPath) (d2 : Disk)
    (hne : o ≠ n) (h : posixRename d o n = .ok d2) :
    existsAt d2 n = true := by
  unfold posixRename at h
  by_cases h1 : existsAt d o = false
  · rw [if_pos h1] at h
    exact absurd h (by simp)
  · rw [if_neg h1, if_neg hne] at h
    have hex : existsAt d o = true := by
      simpa using h1
    by_cases h3 : isUnder o n = true
    · rw [if_pos h3] at h
      exact absurd h (by simp)
    · rw [if_neg h3] at h
      by_cases h4 : existsAt d n = true
      · rw [if_pos h4] at h
        by_cases h5 : isDirAt d o = true
        · rw [if_pos h5] at h
          by_cases h6 : isDirAt d n = true
          · rw [if_pos h6] at h
            by_cases h7 : hasEntryUnder d n = true
            · rw [if_pos h7] at h
              exact absurd h (by simp)
            · rw [if_neg h7, Except.ok.injEq] at h
              rw [← h]
              exact moveSubtree_target_exists d o n hex hne
          · rw [if_neg h6] at h
            exact absurd h (by simp)
        · rw [if_neg h5] at h
          by_cases h6 : isDirAt d n = true
          · rw [if_pos h6] at h
            exact absurd h (by simp)
          · rw [if_neg h6, Except.ok.injEq] at h
            rw [← h]
            exact moveSubtree_target_exists d o n hex hne
      · rw [if_neg h4, Except.ok.injEq] at h
        rw [← h]
        exact moveSubtree_target_exists d o n hex hne

theorem rename_folder_ok_target_exists (d : Disk) (o n : PPath) (d2 : Disk)
    (hne : o ≠ n) (h : rename_folder d o n = (none, d2)) :
    existsAt d2 n = true := by
  unfold rename_folder at h
  split at h
  · next heq => simp at h
  · next d1 heq =>
    split at h
    · simp at h
    · next d3 heq2 =>
      rw [Prod.mk.injEq] at h
      rw [← h.2]
      exact posixRename_ok_exists d1 o n d3 hne heq2

/-- C1 amended: after a successful FolderService.update that physically moved
the folder, the updated row itself is consistent with the disk: its stored
virtual and storage paths are the freshly computed ones, the translator maps
its virtual path to exactly its storage path, and that path exists on disk.
Rows of descendant folders and files are not rewritten by the update, and the
counterexample shows their storage paths may no longer exist on disk. -/
theorem folderUpdate_updated_row_matches_disk (basePath : PPath) (st : St) (fid : Str)
    (data : FolderUpdate) (existing : FolderRow) (newVirt : Str) (row2 : FolderRow) (st2 : St)
    (hex : getFolderById st fid = some existing)
    (hvirt : updateTargetVirtualPath st existing data = .ok newVirt)
    (hne : existing.storagePath ≠ compute_storage_path basePath newVirt)
    (h : folderUpdate basePath st fid data = (.ok row2, st2)) :
    row2.virtualPath = newVirt ∧
    row2.storagePath = compute_storage_path basePath newVirt ∧
    compute_storage_path basePath row2.virtualPath = row2.storagePath ∧
    existsAt st2.disk row2.storagePath = true := by
  simp only [folderUpdate, hex, hvirt] at h
  rw [if_neg hne] at h
  rcases hr : rename_folder st.disk existing.storagePath (compute_storage_path basePath newVirt)
    with ⟨oe, d1⟩
  rw [hr] at h
  cases oe with
  | some e => simp at h
  | none =>
    have hfind : st.folders.find? (fun r => r.id == fid) = some existing := hex
    simp only [finishFolderUpdate] at h
    cases hru : repoFolderUpdate st.folders fid data
        (compute_storage_path basePath newVirt) newVirt with
    | error e =>
      rw [hru] at h
      simp at h
    | ok pair =>
      rcases pair with ⟨r, fs⟩
      simp only [hru] at h
      have hrw : r = applyFolderUpdate existing data
          (compute_storage_path basePath newVirt) newVirt := by
        simp only [repoFolderUpdate, hfind] at hru
        split at hru
        · simp at hru
        · rw [Except.ok.injEq, Prod.mk.injEq] at hru
          exact hru.1.symm
      rw [Prod.mk.injEq, Except.ok.injEq] at h
      obtain ⟨hrow, hst⟩ := h
      have hvp : row2.virtualPath = newVirt := by
        rw [← hrow, hrw]
        rfl
      have hsp : row2.storagePath = compute_storage_path basePath newVirt := by
        rw [← hrow, hrw]
        rfl
      refine ⟨hvp, hsp, ?_, ?_⟩
      · rw [hvp, hsp]
      · have hdisk : st2.disk = d1 := by
          rw [← hst]
        rw [hdisk, hsp]
        exact rename_folder_ok_target_exists st.disk existing.storagePath
          (compute_storage_path basePath newVirt) d1 hne hr

theorem folderUpdate_updated_row_matches_disk_witness :
    getFolderById c1St "1".toList = some c1Parent ∧
    updateTargetVirtualPath c1St c1Parent c1Data = .ok "/c/".toList ∧
    c1Parent.storagePath ≠ compute_storage_path [] "/c/".toList ∧
    (c1ParentAfter.virtualPath = "/c/".toList ∧
     c1ParentAfter.storagePath = compute_storage_path [] "/c/".toList ∧
     compute_storage_path [] c1ParentAfter.virtualPath = c1ParentAfter.storagePath ∧
     existsAt (folderUpdate [] c1St "1".toList c1Data).2.disk c1ParentAfter.storagePath = true) :=
  ⟨rfl, rfl, by decide,
    folderUpdate_updated_row_matches_disk [] c1St "1".toList c1Data c1Parent "/c/".toList
      c1ParentAfter (folderUpdate [] c1St "1".toList c1Data).2 rfl rfl (by decide) rfl⟩

theorem existsAt_filter_not_under (d : Disk) (p : PPath) :
    existsAt (d.filter (fun e => !(isUnder p e.path))) p = false := by
  unfold existsAt
  rw [Bool.eq_false_iff]
  intro hc
  rw [List.any_eq_true] at hc
  obtain ⟨e, he, hep⟩ := hc
  rw [List.mem_filter] at he
  have h1 : e.path = p := by simpa using hep
  have h2 : isUnder p e.path = false := by simpa using he.2
  rw [h1, isUnder_refl] at h2
  exact absurd h2 (by simp)

theorem existsAt_filter_ne (d : Disk) (p : PPath) :
    existsAt (d.filter (fun e => !(e.path == p))) p = false := by
  unfold existsAt
  rw [Bool.eq_false_iff]
  intro hc
  rw [List.any_eq_true] at hc
  obtain ⟨e, he, hep⟩ := hc
  rw [List.mem_filter] at he
  have h1 : e.path = p := by simpa using hep
  have h2 : (e.path == p) = false := by simpa using he.2
  rw [h1] at h2
  simp at h2

theorem rmTree_state_idempotent (d : Disk) (p : PPath) :
    (rmTree (rmTree d p).2 p).2 = (rmTree d p).2 := by
  by_cases h1 : existsAt d p = true
  · by_cases h2 : isDirAt d p = true
    · have hfst : (rmTree d p).2 = d.filter (fun e => !(isUnder p e.path)) := by
        unfold rmTree
        rw [if_pos h1, if_pos h2]
      rw [hfst]
      unfold rmTree
      rw [existsAt_filter_not_under d p]
      simp
    · have hfst : (rmTree d p).2 = d := by
        unfold rmTree
        rw [if_pos h1, if_neg h2]
      rw [hfst]
      exact hfst
  · have hfst : (rmTree d p).2 = d := by
      unfold rmTree
      rw [if_neg h1]
    rw [hfst]
    exact hfst

theorem unlinkFile_state_idempotent (d : Disk) (p : PPath) :
    (unlinkFile (unlinkFile d p).2 p).2 = (unlinkFile d p).2 := by
  by_cases h1 : existsAt d p = true
  · by_cases h2 : isDirAt d p = true
    · have hfst : (unlinkFile d p).2 = d := by
        unfold unlinkFile
        rw [if_pos h1, if_pos h2]
      rw [hfst]
      exact hfst
    · have hfst : (unlinkFile d p).2 = d.filter (fun e => !(e.path == p)) := by
        unfold unlinkFile
        rw [if_pos h1, if_neg h2]
      rw [hfst]
      unfold unlinkFile
      rw [existsAt_filter_ne d p]
      simp
  · have hfst : (unlinkFile d p).2 = d := by
      unfold unlinkFile
      rw [if_neg h1]
    rw [hfst]
    exact hfst

theorem mem_cascadeIds (fs : List FolderRow) (n : Nat) (acc : List Str) (x : Str)
    (hx : x ∈ acc) : x ∈ cascadeIds fs acc n := by
  induction n generalizing acc with
  | zero => simpa [cascadeIds] using hx
  | succ n ih =>
    unfold cascadeIds
    split
    · exact hx
    · exact ih _ (List.mem_append_left _ hx)

theorem folder_find?_filter_removed (fs : List FolderRow) (ids : List Str) (fid : Str)
    (hf : fid ∈ ids) :
    (fs.filter (fun r => !(ids.contains r.id))).find? (fun r => r.id == fid) = none := by
  rw [List.find?_eq_none]
  intro r hr hc
  rw [List.mem_filter] at hr
  have h1 : r.id = fid := by simpa using hc
  have h2 : ids.contains r.id = false := by simpa using hr.2
  rw [h1] at h2
  have h3 : ids.contains fid = true := by
    simpa using List.elem_eq_true_of_mem hf
  rw [h3] at h2
  simp at h2

theorem file_find?_filter_removed (fs : List FileRow) (fid : Str) :
    (fs.filter (fun f => !(f.id == fid))).find? (fun f => f.id == fid) = none := by
  rw [List.find?_eq_none]
  intro f hf hc
  rw [List.mem_filter] at hf
  have h2 : (f.id == fid) = false := by simpa using hf.2
  rw [hc] at h2
  simp at h2

/-- C8: physical deletion is idempotent: both rmtree-based folder deletion and
unlink-based file deletion succeed silently without touching the disk when
the path is absent, applying either twice leaves the same disk as applying it
once, and the coordinator delete of a folder or file whose physical path is
already gone still reports success, removes the catalog row and leaves the
disk as it was. -/
theorem physical_delete_idempotent (d : Disk) (p : PPath) (st st2 : St)
    (fid fileId : Str) (row : FolderRow) (frow : FileRow)
    (hne : existsAt d p = false)
    (hrow : getFolderById st fid = some row)
    (habsent : existsAt st.disk row.storagePath = false)
    (hfrow : getFileById st2 fileId = some frow)
    (hfabsent : existsAt st2.disk frow.storagePath = false) :
    rmTree d p = (none, d) ∧
    unlinkFile d p = (none, d) ∧
    (∀ d0 q, (rmTree (rmTree d0 q).2 q).2 = (rmTree d0 q).2) ∧
    (∀ d0 q, (unlinkFile (unlinkFile d0 q).2 q).2 = (unlinkFile d0 q).2) ∧
    ((folderDelete st fid).1 = .ok () ∧
      getFolderById (folderDelete st fid).2 fid = none ∧
      (folderDelete st fid).2.disk = st.disk) ∧
    ((fileDeleteById st2 fileId).1 = .ok () ∧
      getFileById (fileDeleteById st2 fileId).2 fileId = none ∧
      (fileDeleteById st2 fileId).2.disk = st2.disk) := by
  have hr1 : rmTree d p = (none, d) := by
    unfold rmTree
    rw [hne]
    simp
  have hr2 : unlinkFile d p = (none, d) := by
    unfold unlinkFile
    rw [hne]
    simp
  have hok : (folderDelete st fid).1 = .ok () := by
    simp only [folderDelete, hrow, rmTree, habsent]
    simp
  have hdisk : (folderDelete st fid).2.disk = st.disk := by
    simp only [folderDelete, hrow, rmTree, habsent]
    simp
  have hfolders : (folderDelete st fid).2.folders
      = st.folders.filter (fun r => !((folderIdsToDelete st.folders fid).contains r.id)) := by
    simp only [folderDelete, hrow, rmTree, habsent]
    simp
  have hfok : (fileDeleteById st2 fileId).1 = .ok () := by
    simp only [fileDeleteById, hfrow, unlinkFile, hfabsent]
    simp
  have hfdisk : (fileDeleteById st2 fileId).2.disk = st2.disk := by
    simp only [fileDeleteById, hfrow, unlinkFile, hfabsent]
    simp
  have hffiles : (fileDeleteById st2 fileId).2.files
      = st2.files.filter (fun f => !(f.id == fileId)) := by
    simp only [fileDeleteById, hfrow, unlinkFile, hfabsent]
    simp
  refine ⟨hr1, hr2, rmTree_state_idempotent, unlinkFile_state_idempotent, ⟨hok, ?_, hdisk⟩,
    hfok, ?_, hfdisk⟩
  · unfold getFolderById
    rw [hfolders]
    exact folder_find?_filter_removed st.folders (folderIdsToDelete st.folders fid) fid
      (mem_cascadeIds st.folders st.folders.length [fid] fid (by simp))
  · unfold getFileById
    rw [hffiles]
    exact file_find?_filter_removed st2.files fileId

/-- State of the C8 witness: a folder row and a file row whose storage paths
are absent from the disk, plus an unrelated entry. -/
def c8FolderRow : FolderRow :=
  { id := "1".toList, name := "gone".toList, parentId := none,
    creatorUserId := "u".toList, isPublished := true,
    storagePath := ["gone".toList], virtualPath := "/gone/".toList }

def c8FileRow : FileRow :=
  { id := "f1".toList, name := "gone.txt".toList, uploaderUserId := "u".toList,
    folderId := none, storagePath := ["gone.txt".toList], virtualPath := "/gone.txt".toList,
    sizeBytes := 3, mimeType := "text/plain".toList }

def c8St : St :=
  { folders := [c8FolderRow], files := [c8FileRow], disk := [⟨["other".toList], .dir⟩] }

theorem physical_delete_idempotent_witness :
    existsAt c8St.disk ["missing".toList] = false ∧
    getFolderById c8St "1".toList = some c8FolderRow ∧
    existsAt c8St.disk c8FolderRow.storagePath = false ∧
    getFileById c8St "f1".toList = some c8FileRow ∧
    existsAt c8St.disk c8FileRow.storagePath = false ∧
    (rmTree c8St.disk ["missing".toList] = (none, c8St.disk) ∧
      unlinkFile c8St.disk ["missing".toList] = (none, c8St.disk) ∧
      (∀ d0 q, (rmTree (rmTree d0 q).2 q).2 = (rmTree d0 q).2) ∧
      (∀ d0 q, (unlinkFile (unlinkFile d0 q).2 q).2 = (unlinkFile d0 q).2) ∧
      ((folderDelete c8St "1".toList).1 = .ok () ∧
        getFolderById (folderDelete c8St "1".toList).2 "1".toList = none ∧
        (folderDelete c8St "1".toList).2.disk = c8St.disk) ∧
      ((fileDeleteById c8St "f1".toList).1 = .ok () ∧
        getFileById (fileDeleteById c8St "f1".toList).2 "f1".toList = none ∧
        (fileDeleteById c8St "f1".toList).2.disk = c8St.disk)) :=
  ⟨rfl, rfl, rfl, rfl, rfl,
    physical_delete_idempotent c8St.disk ["missing".toList] c8St c8St
      "1".toList "f1".toList c8FolderRow c8FileRow rfl rfl rfl rfl rfl⟩

theorem statSize_writeFileAt (d : Disk) (p : PPath) (c : List Nat) :
    statSize (writeFileAt d p c) p = c.length := by
  induction d with
  | nil => simp [writeFileAt, statSize]
  | cons e es ih =>
    by_cases hp : (e.path == p) = true
    · simp [writeFileAt, hp, statSize]
    · have hcond : (e.path == p) = false := by simpa using hp
      simp [writeFileAt, statSize, hcond, ih]

theorem compute_file_path_getLast (basePath : PPath) (vp fn : Str) :
    (compute_file_path basePath vp fn).getLast? = some fn := by
  unfold compute_file_path
  rw [← List.append_assoc]
  exact List.getLast?_concat _

theorem save_file_ok (cfg : FileCfg) (d : Disk) (vp fn : Str) (content : List Nat)
    (p : PPath) (d1 : Disk) (h : save_file cfg d vp fn content = (.ok p, d1)) :
    p = compute_file_path cfg.basePath vp fn ∧ statSize d1 p = content.length := by
  simp only [save_file] at h
  by_cases h1 : extAllowed cfg.allowedExtensions (pyLower (pySuffix (lastComponent fn))) = false
  · rw [if_pos h1] at h
    simp at h
  · rw [if_neg h1] at h
    split at h
    · simp at h
    · split at h
      · simp at h
      · rw [Prod.mk.injEq, Except.ok.injEq] at h
        obtain ⟨hp, hd⟩ := h
        refine ⟨hp.symm, ?_⟩
        rw [← hd, ← hp]
        exact statSize_writeFileAt _ _ _

/-- Shape of every successful upload: the catalog row records the display
name, the virtual path folder-sans-trailing-separator plus separator plus
identifier plus derived extension, the physical path computed from the same
directory and identifier filename, the byte length of the written content,
and the MIME type guessed from the identifier filename. -/
theorem fileUpload_ok_row (cfg : FileCfg) (st : St) (fileName : Option Str)
    (uploaderId : Str) (folderPath : Str) (content : List Nat) (newId : Str)
    (folderInfo : FolderRow) (row : FileRow) (st2 : St)
    (hfolder : getFolderByVirtualPath st folderPath = some folderInfo)
    (h : fileUpload cfg st fileName uploaderId folderPath content newId = (.ok row, st2)) :
    row.name = fileName.getD newId ∧
    row.virtualPath = dropTrailing '/' folderInfo.virtualPath
      ++ ('/' :: (newId ++ pySuffix (lastComponent (fileName.getD newId)))) ∧
    row.storagePath = compute_file_path cfg.basePath
      (if dropTrailing '/' folderInfo.virtualPath = [] then ['/']
        else dropTrailing '/' folderInfo.virtualPath)
      (newId ++ pySuffix (lastComponent (fileName.getD newId))) ∧
    row.sizeBytes = content.length ∧
    statSize st2.disk row.storagePath = content.length ∧
    row.mimeType = guessMime (newId ++ pySuffix (lastComponent (fileName.getD newId))) := by
  simp only [fileUpload, hfolder] at h
  split at h
  · simp at h
  · next phys d1 heq =>
    obtain ⟨hp, hsize⟩ := save_file_ok cfg st.disk _ _ content phys d1 heq
    split at h
    · simp at h
    · split at h
      · rw [Prod.mk.injEq, Except.ok.injEq] at h
        obtain ⟨hrow, hst⟩ := h
        refine ⟨?_, ?_, ?_, ?_, ?_, ?_⟩
        · rw [← hrow]
        · rw [← hrow]
        · rw [← hrow]
          exact hp
        · rw [← hrow]
          exact hsize
        · rw [← hrow, ← hst]
          exact hsize
        · rw [← hrow]
      · simp at h

/-- C5: every successful upload of a file with display name D under a folder
records a catalog row whose virtual path is the folder virtual path without
its trailing separator, plus the separator, the freshly generated identifier
and the extension of D; whose on-disk filename (the final storage path
component) is the identifier plus that extension rather than D; whose size in
bytes is the byte length of the written physical file, equal to the length of
the uploaded content; and whose MIME type is guessed from that identifier
filename (application/pdf for a .pdf, as the witness shows). -/
theorem fileUpload_row_paths_size (cfg : FileCfg) (st : St) (D uploaderId folderPath : Str)
    (content : List Nat) (newId : Str) (folderInfo : FolderRow) (row : FileRow) (st2 : St)
    (hfolder : getFolderByVirtualPath st folderPath = some folderInfo)
    (h : fileUpload cfg st (some D) uploaderId folderPath content newId = (.ok row, st2)) :
    row.name = D ∧
    row.virtualPath = dropTrailing '/' folderInfo.virtualPath
      ++ ('/' :: (newId ++ pySuffix (lastComponent D))) ∧
    row.storagePath.getLast? = some (newId ++ pySuffix (lastComponent D)) ∧
    row.sizeBytes = content.length ∧
    statSize st2.disk row.storagePath = content.length ∧
    row.mimeType = guessMime (newId ++ pySuffix (lastComponent D)) := by
  obtain ⟨h1, h2, h3, h4, h5, h6⟩ := fileUpload_ok_row cfg st (some D) uploaderId folderPath
    content newId folderInfo row st2 hfolder h
  simp only [Option.getD_some] at h1 h2 h3 h6
  refine ⟨h1, h2, ?_, h4, h5, h6⟩
  rw [h3, compute_file_path_getLast]

/-- Configuration of the upload witnesses. -/
def c5Cfg : FileCfg := { basePath := ["store".toList], allowedExtensions := none }

/-- The library folder row of the C5 witness. -/
def c5Folder : FolderRow :=
  { id := "9".toList, name := "library".toList, parentId := none,
    creatorUserId := "u".toList, isPublished := true,
    storagePath := ["store".toList, "library".toList], virtualPath := "/library/".toList }

/-- Initial state of the C5 witness. -/
def c5St : St :=
  { folders := [c5Folder], files := [],
    disk := [⟨["store".toList], .dir⟩, ⟨["store".toList, "library".toList], .dir⟩] }

/-- The catalog row the C5 witness upload produces. -/
def c5Row : FileRow :=
  { id := "f1f2".toList, name := "report.pdf".toList, uploaderUserId := "u1".toList,
    folderId := some "9".toList,
    storagePath := ["store".toList, "library".toList, "f1f2.pdf".toList],
    virtualPath := "/library/f1f2.pdf".toList,
    sizeBytes := 3, mimeType := "application/pdf".toList }

/-- The state after the C5 witness upload. -/
def c5St2 : St :=
  { folders := [c5Folder], files := [c5Row],
    disk := [⟨["store".toList], .dir⟩, ⟨["store".toList, "library".toList], .dir⟩,
      ⟨["store".toList, "library".toList, "f1f2.pdf".toList], .file [1, 2, 3]⟩] }

theorem fileUpload_row_paths_size_witness :
    getFolderByVirtualPath c5St "/library/".toList = some c5Folder ∧
    fileUpload c5Cfg c5St (some "report.pdf".toList) "u1".toList "/library/".toList
        [1, 2, 3] "f1f2".toList = (.ok c5Row, c5St2) ∧
    (c5Row.name = "report.pdf".toList ∧
      c5Row.virtualPath = dropTrailing '/' c5Folder.virtualPath
        ++ ('/' :: ("f1f2".toList ++ pySuffix (lastComponent "report.pdf".toList))) ∧
      c5Row.storagePath.getLast?
        = some ("f1f2".toList ++ pySuffix (lastComponent "report.pdf".toList)) ∧
      c5Row.sizeBytes = ([1, 2, 3] : List Nat).length ∧
      statSize c5St2.disk c5Row.storagePath = ([1, 2, 3] : List Nat).length ∧
      c5Row.mimeType = guessMime ("f1f2".toList ++ pySuffix (lastComponent "report.pdf".toList))) ∧
    c5Row.virtualPath = "/library/f1f2.pdf".toList ∧
    c5Row.mimeType = "application/pdf".toList :=
  ⟨rfl, rfl,
    fileUpload_row_paths_size c5Cfg c5St "report.pdf".toList "u1".toList "/library/".toList
      [1, 2, 3] "f1f2".toList c5Folder c5Row c5St2 rfl rfl,
    rfl, rfl⟩

theorem takeWhile_all (p : Char → Bool) (l : Str) (h : ∀ a ∈ l, p a = true) :
    l.takeWhile p = l := by
  induction l with
  | nil => rfl
  | cons x xs ih =>
    have hx := h x (List.mem_cons_self x xs)
    have ht := ih (fun a ha => h a (List.mem_cons_of_mem x ha))
    simp [List.takeWhile_cons, hx, ht]

theorem findIdx?_none_aux (p : Char → Bool) (l : Str) (h : ∀ a ∈ l, p a = false) :
    ∀ i, List.findIdx? p l i = none := by
  induction l with
  | nil => intro i; rfl
  | cons x xs ih =>
    intro i
    rw [List.findIdx?_cons, h x (List.mem_cons_self x xs)]
    simp only [Bool.false_eq_true, if_false]
    exact ih (fun a ha => h a (List.mem_cons_of_mem x ha)) (i + 1)

/-- The characters that can occur in the canonical text form of a uuid4. -/
def uuidAlphabet : Str := "0123456789abcdef-".toList

/-- Canonical uuid4 text: 36 characters drawn from hex digits and hyphens. -/
def isUuidText (s : Str) : Bool :=
  (s.length == 36) && s.all (fun c => uuidAlphabet.contains c)

theorem uuid_not_contains (s : Str) (c : Char) (hs : isUuidText s = true)
    (hc : uuidAlphabet.contains c = false) : s.contains c = false := by
  unfold isUuidText at hs
  rw [Bool.and_eq_true] at hs
  have hall := hs.2
  rw [List.all_eq_true] at hall
  rw [Bool.eq_false_iff]
  intro hcon
  have hmem : c ∈ s := by simpa using hcon
  have hin := hall c hmem
  rw [hc] at hin
  simp at hin

theorem lastComponent_of_no_sep (s : Str) (h : s.contains '/' = false) :
    lastComponent s = s := by
  unfold lastComponent
  rw [takeWhile_all _ _ ?_, List.reverse_reverse]
  intro a ha
  rw [List.mem_reverse] at ha
  have hne : ¬ a = '/' := by
    intro he
    subst he
    have h2 : s.contains '/' = true := by simpa using ha
    rw [h] at h2
    simp at h2
  simp [hne]

theorem pySuffix_of_no_dot (s : Str) (h : s.contains '.' = false) : pySuffix s = [] := by
  unfold pySuffix
  have hnone : List.findIdx? (fun y => y == '.') s.reverse 0 = none := by
    apply findIdx?_none_aux
    intro a ha
    rw [List.mem_reverse] at ha
    have hne : ¬ a = '.' := by
      intro he
      subst he
      have h2 : s.contains '.' = true := by simpa using ha
      rw [h] at h2
      simp at h2
    simp [hne]
  rw [hnone]

/-- C10: when the HTTP layer passes file_name through as None, the display
name stored in the catalog is the string form of the freshly generated
identifier, the derived extension is empty (a canonical uuid string contains
no dot), and the virtual path ends in the bare identifier with no extension. -/
theorem fileUpload_none_filename_uses_id (cfg : FileCfg) (st : St)
    (uploaderId folderPath : Str) (content : List Nat) (newId : Str)
    (folderInfo : FolderRow) (row : FileRow) (st2 : St)
    (huuid : isUuidText newId = true)
    (hfolder : getFolderByVirtualPath st folderPath = some folderInfo)
    (h : fileUpload cfg st none uploaderId folderPath content newId = (.ok row, st2)) :
    row.name = newId ∧
    pySuffix (lastComponent newId) = [] ∧
    row.virtualPath = dropTrailing '/' folderInfo.virtualPath ++ ('/' :: newId) := by
  have hnd : newId.contains '.' = false := uuid_not_contains newId '.' huuid (by decide)
  have hns : newId.contains '/' = false := uuid_not_contains newId '/' huuid (by decide)
  have hsuf : pySuffix (lastComponent newId) = [] := by
    rw [lastComponent_of_no_sep newId hns]
    exact pySuffix_of_no_dot newId hnd
  obtain ⟨h1, h2, h3, h4, h5, h6⟩ := fileUpload_ok_row cfg st none uploaderId folderPath
    content newId folderInfo row st2 hfolder h
  simp only [Option.getD_none] at h1 h2
  refine ⟨h1, hsuf, ?_⟩
  rw [h2, hsuf, List.append_nil]

/-- The uuid string of the C10 witness. -/
def c10Id : Str := "123e4567-e89b-12d3-a456-426614174000".toList

/-- The docs folder row of the C10 witness. -/
def c10Folder : FolderRow :=
  { id := "7".toList, name := "docs".toList, parentId := none,
    creatorUserId := "u".toList, isPublished := true,
    storagePath := ["store".toList, "docs".toList], virtualPath := "/docs/".toList }

/-- Initial state of the C10 witness. -/
def c10St : St :=
  { folders := [c10Folder], files := [],
    disk := [⟨["store".toList], .dir⟩, ⟨["store".toList, "docs".toList], .dir⟩] }

/-- The catalog row the C10 witness upload produces. -/
def c10Row : FileRow :=
  { id := c10Id, name := c10Id, uploaderUserId := "u1".toList,
    folderId := some "7".toList,
    storagePath := ["store".toList, "docs".toList, c10Id],
    virtualPath := "/docs/".toList.dropLast ++ ('/' :: c10Id),
    sizeBytes := 2, mimeType := "application/octet-stream".toList }

/-- The state after the C10 witness upload. -/
def c10St2 : St :=
  { folders := [c10Folder], files := [c10Row],
    disk := [⟨["store".toList], .dir⟩, ⟨["store".toList, "docs".toList], .dir⟩,
      ⟨["store".toList, "docs".toList, c10Id], .file [5, 6]⟩] }

theorem fileUpload_none_filename_uses_id_witness :
    isUuidText c10Id = true ∧
    getFolderByVirtualPath c10St "/docs/".toList = some c10Folder ∧
    fileUpload c5Cfg c10St none "u1".toList "/docs/".toList [5, 6] c10Id
      = (.ok c10Row, c10St2) ∧
    (c10Row.name = c10Id ∧
      pySuffix (lastComponent c10Id) = [] ∧
      c10Row.virtualPath = dropTrailing '/' c10Folder.virtualPath ++ ('/' :: c10Id)) :=
  ⟨rfl, rfl, rfl,
    fileUpload_none_filename_uses_id c5Cfg c10St "u1".toList "/docs/".toList [5, 6] c10Id
      c10Folder c10Row c10St2 rfl rfl rfl⟩

end VStore
